import Mathlib

/-!
Verification development for the shader-reflection module
(`src/render/shader_reflect.rs`): a shallow embedding of the data model and
of the reflection functions, followed by theorems about them.

The embedding conventions:
* The introspection facility's descriptor/type tree (`spirv_reflect`'s
  `ReflectDescriptorSet`, `ReflectDescriptorBinding`, `ReflectTypeDescription`,
  `ReflectTypeFlags`, `ReflectDimension`, `ReflectDescriptorType`) is modelled
  as plain inductive data, restricted to the fields the source reads.
* The source functions abort the process with `panic!` / `.unwrap()` on any
  unsupported shape.  Those abort paths are modelled as the `Except.error`
  branch of an explicit `ReflectError` outcome type whose constructors record
  the cause carried by each panic message; `Except.ok` is the value the Rust
  function returns.  An `Except.error` outcome therefore models a process
  abort of the original program, not a Rust `Result` error value.
* `Nat` stands for the non-negative integers `u32` of the source; none of the
  reflected quantities is ever subject to arithmetic, so no overflow modelling
  is needed.
-/

/-- `ReflectDescriptorType` of the introspection facility: the descriptor
resource kinds a binding can have. -/
inductive ReflectDescriptorType where
  | Undefined
  | Sampler
  | CombinedImageSampler
  | SampledImage
  | StorageImage
  | UniformTexelBuffer
  | StorageTexelBuffer
  | UniformBuffer
  | StorageBuffer
  | UniformBufferDynamic
  | StorageBufferDynamic
  | InputAttachment
  | AccelerationStructureNV
  deriving DecidableEq, Repr

/-- `ReflectDimension` of the introspection facility: image dimensionality. -/
inductive ReflectDimension where
  | Undefined
  | Type1d
  | Type2d
  | Type3d
  | Cube
  | Rect
  | Buffer
  | SubPassData
  deriving DecidableEq, Repr

/-- `ReflectTypeFlags` of the introspection facility, modelled as one boolean
per flag bit the source consults (plus the other bits of the bitset so that
the flags value carried by an error is faithful). -/
structure ReflectTypeFlags where
  void : Bool := false
  bool : Bool := false
  int : Bool := false
  float : Bool := false
  vector : Bool := false
  matrix : Bool := false
  external_image : Bool := false
  external_sampler : Bool := false
  external_sampled_image : Bool := false
  external_block : Bool := false
  external_mask : Bool := false
  array : Bool := false
  struct : Bool := false
  deriving DecidableEq, Repr

/-- Scalar numeric traits: bit width and signedness. -/
structure ReflectScalarTraits where
  width : Nat := 0
  signedness : Nat := 0
  deriving DecidableEq, Repr

/-- Vector numeric traits: component count. -/
structure ReflectVectorTraits where
  component_count : Nat := 0
  deriving DecidableEq, Repr

/-- Matrix numeric traits: column count, row count, stride. -/
structure ReflectMatrixTraits where
  column_count : Nat := 0
  row_count : Nat := 0
  stride : Nat := 0
  deriving DecidableEq, Repr

/-- Numeric traits of a type description. -/
structure ReflectNumericTraits where
  scalar : ReflectScalarTraits := {}
  vector : ReflectVectorTraits := {}
  matrix : ReflectMatrixTraits := {}
  deriving DecidableEq, Repr

/-- Image traits of a type description (only the dimension is consulted). -/
structure ReflectImageTraits where
  dim : ReflectDimension := ReflectDimension.Undefined
  deriving DecidableEq, Repr

/-- The `traits` record of a type description. -/
structure ReflectTypeDescriptionTraits where
  numeric : ReflectNumericTraits := {}
  image : ReflectImageTraits := {}
  deriving DecidableEq, Repr

/-- `ReflectTypeDescription` of the introspection facility: a finite type
tree.  A node carries its declared type name, its type flags, its traits and
its member list (an inductive type, because `structure` cannot recurse). -/
inductive ReflectTypeDescription where
  | mk
    (type_name : String)
    (type_flags : ReflectTypeFlags)
    (traits : ReflectTypeDescriptionTraits)
    (members : List ReflectTypeDescription)
  deriving Repr

/-- The declared type name of a type description node. -/
def ReflectTypeDescription.type_name : ReflectTypeDescription → String
  | ReflectTypeDescription.mk n _ _ _ => n

/-- The type flags of a type description node. -/
def ReflectTypeDescription.type_flags : ReflectTypeDescription → ReflectTypeFlags
  | ReflectTypeDescription.mk _ f _ _ => f

/-- The traits of a type description node. -/
def ReflectTypeDescription.traits : ReflectTypeDescription → ReflectTypeDescriptionTraits
  | ReflectTypeDescription.mk _ _ t _ => t

/-- The member list of a type description node. -/
def ReflectTypeDescription.members : ReflectTypeDescription → List ReflectTypeDescription
  | ReflectTypeDescription.mk _ _ _ m => m

/-- `ReflectDescriptorBinding` of the introspection facility, restricted to
the fields the source reads: binding index, instance name, resource kind and
the optional type description (`Option`, because the facility exposes it as a
nullable field that the source unwraps). -/
structure ReflectDescriptorBinding where
  binding : Nat
  name : String
  descriptor_type : ReflectDescriptorType
  type_description : Option ReflectTypeDescription

/-- `ReflectDescriptorSet` of the introspection facility: set index and the
bindings in enumeration order. -/
structure ReflectDescriptorSet where
  set : Nat
  bindings : List ReflectDescriptorBinding

/-- Modelled from the spec: `TextureViewDimension` lives in
`render::render_graph`, which is not part of the sources; the spec lists the
dimensions the mapper produces: D1, D2, D3, Cube. -/
inductive TextureViewDimension where
  | D1
  | D2
  | D3
  | Cube
  deriving DecidableEq, Repr

mutual
/-- Modelled from the spec: `UniformPropertyType` lives in
`render::render_graph`, which is not part of the sources; the spec gives the
closed variant set (its `UInt4` is the source's `UVec4`: the 4-component
unsigned vector), and the source names the variants `Int`, `Vec3`, `Vec4`,
`Mat3`, `Mat4`, `UVec4`, `Struct`. -/
inductive UniformPropertyType where
  | Int
  | Vec3
  | Vec4
  | Mat3
  | Mat4
  | UVec4
  | Struct (properties : List UniformProperty)

/-- Modelled from the spec: `UniformProperty` lives in
`render::render_graph`; a name together with a property type. -/
inductive UniformProperty where
  | mk (name : String) (property_type : UniformPropertyType)
end

/-- The name of a uniform property. -/
def UniformProperty.name : UniformProperty → String
  | UniformProperty.mk n _ => n

/-- The property type of a uniform property. -/
def UniformProperty.property_type : UniformProperty → UniformPropertyType
  | UniformProperty.mk _ t => t

/-- Modelled from the spec: `BindType` lives in `render::render_graph`; the
closed variant set of binding kinds. -/
inductive BindType where
  | Uniform (dynamic : Bool) (properties : List UniformProperty)
  | SampledTexture (dimension : TextureViewDimension) (multisampled : Bool)
  | Sampler

/-- Modelled from the spec: `Binding` lives in `render::render_graph`. -/
structure Binding where
  index : Nat
  bind_type : BindType
  name : String

/-- Modelled from the spec: `BindGroup` lives in `render::render_graph`:
a set index and the bindings of that set. -/
structure BindGroup where
  set : Nat
  bindings : List Binding

/-- Modelled from the spec: `BindGroup::new(set, bindings)`. -/
def BindGroup.new (set : Nat) (bindings : List Binding) : BindGroup :=
  { set := set, bindings := bindings }

/-- `ShaderLayout` of `shader_reflect.rs`: the ordered bind groups and the
entry-point name. -/
structure ShaderLayout where
  bind_groups : List BindGroup
  entry_point : String

/-- `NumberType` of `shader_reflect.rs`: the number class of a numeric leaf. -/
inductive NumberType where
  | Int
  | UInt
  | Float
  deriving DecidableEq, Repr

/-- The causes of the abort paths of `shader_reflect.rs`, one constructor per
`panic!` / `.unwrap()` site, carrying the data interpolated into the panic
message.  The spec's error taxonomy names them the same way. -/
inductive ReflectError where
  | LoadError (err : String)
  | UnsupportedBindingType (kind : ReflectDescriptorType)
  | UnsupportedImageDimension (dim : ReflectDimension)
  | InvalidSignedness (value : Nat)
  | UnrecognizedTypeFlags (flags : ReflectTypeFlags)
  | UnsupportedMatrixShape (number_type : NumberType) (column_count : Nat) (row_count : Nat)
  | UnsupportedVectorShape (number_type : NumberType) (component_count : Nat)
  | MissingTypeDescription
  deriving DecidableEq, Repr

/-!
The reflection functions of `shader_reflect.rs`, translated one-to-one.
Each Rust `panic!` / `.unwrap()` becomes an `Except.error` carrying the
corresponding `ReflectError` cause.
-/

/-- `reflect_dimension` (lines 61-69): map the image dimensionality of a type
description to a `TextureViewDimension`; the source panics on any other
dimension (`UnsupportedImageDimension`). -/
def reflect_dimension (type_description : ReflectTypeDescription) :
    Except ReflectError TextureViewDimension :=
  match type_description.traits.image.dim with
  | ReflectDimension.Type1d => Except.ok TextureViewDimension.D1
  | ReflectDimension.Type2d => Except.ok TextureViewDimension.D2
  | ReflectDimension.Type3d => Except.ok TextureViewDimension.D3
  | ReflectDimension.Cube => Except.ok TextureViewDimension.Cube
  | dimension => Except.error (ReflectError.UnsupportedImageDimension dimension)

/-- The number-class computation inlined in `reflect_uniform_numeric`
(lines 133-146): with the `INT` flag the class comes from the signedness
trait (`0 ↦ UInt`, `1 ↦ Int`, anything else panics `InvalidSignedness`);
otherwise the `FLOAT` flag gives `Float`; with neither flag the source
panics `UnrecognizedTypeFlags`. -/
def reflect_number_type (type_description : ReflectTypeDescription) :
    Except ReflectError NumberType :=
  if type_description.type_flags.int then
    match type_description.traits.numeric.scalar.signedness with
    | 0 => Except.ok NumberType.UInt
    | 1 => Except.ok NumberType.Int
    | signedness => Except.error (ReflectError.InvalidSignedness signedness)
  else if type_description.type_flags.float then
    Except.ok NumberType.Float
  else
    Except.error (ReflectError.UnrecognizedTypeFlags type_description.type_flags)

/-- `reflect_uniform_numeric` (lines 131-177): resolve a numeric leaf.  After
the number class (`reflect_number_type`), the `MATRIX` flag selects the
matrix table (`Float 3×3 ↦ Mat3`, `Float 4×4 ↦ Mat4`, else panic
`UnsupportedMatrixShape`), otherwise the vector table by component count
(`Int 1 ↦ Int`, `Float 3 ↦ Vec3`, `Float 4 ↦ Vec4`, `UInt 4 ↦ UVec4`, else
panic `UnsupportedVectorShape`). -/
def reflect_uniform_numeric (type_description : ReflectTypeDescription) :
    Except ReflectError UniformPropertyType :=
  match reflect_number_type type_description with
  | Except.error e => Except.error e
  | Except.ok number_type =>
    if type_description.type_flags.matrix then
      match number_type, type_description.traits.numeric.matrix.column_count,
          type_description.traits.numeric.matrix.row_count with
      | NumberType.Float, 3, 3 => Except.ok UniformPropertyType.Mat3
      | NumberType.Float, 4, 4 => Except.ok UniformPropertyType.Mat4
      | nt, column_count, row_count =>
        Except.error (ReflectError.UnsupportedMatrixShape nt column_count row_count)
    else
      match number_type, type_description.traits.numeric.vector.component_count with
      | NumberType.Int, 1 => Except.ok UniformPropertyType.Int
      | NumberType.Float, 3 => Except.ok UniformPropertyType.Vec3
      | NumberType.Float, 4 => Except.ok UniformPropertyType.Vec4
      | NumberType.UInt, 4 => Except.ok UniformPropertyType.UVec4
      | nt, component_count =>
        Except.error (ReflectError.UnsupportedVectorShape nt component_count)

mutual
/-- `reflect_uniform` (lines 106-120): with the `STRUCT` flag recurse into the
members, otherwise resolve the numeric leaf; wrap the result with the type's
declared name. -/
def reflect_uniform : ReflectTypeDescription → Except ReflectError UniformProperty
  | ReflectTypeDescription.mk type_name type_flags traits members =>
    let uniform_property_type :=
      if type_flags.struct then
        match reflect_uniform_members members with
        | Except.ok properties => Except.ok (UniformPropertyType.Struct properties)
        | Except.error e => Except.error e
      else
        reflect_uniform_numeric (ReflectTypeDescription.mk type_name type_flags traits members)
    match uniform_property_type with
    | Except.ok property_type => Except.ok (UniformProperty.mk type_name property_type)
    | Except.error e => Except.error e

/-- The member loop of `reflect_uniform_struct` (lines 122-129): resolve each
member in declaration order, stopping at the first abort. -/
def reflect_uniform_members :
    List ReflectTypeDescription → Except ReflectError (List UniformProperty)
  | [] => Except.ok []
  | member :: rest =>
    match reflect_uniform member with
    | Except.error e => Except.error e
    | Except.ok property =>
      match reflect_uniform_members rest with
      | Except.error e => Except.error e
      | Except.ok properties => Except.ok (property :: properties)
end

/-- `reflect_uniform_struct` (lines 122-129): resolve the members in
declaration order and wrap as `Struct`. -/
def reflect_uniform_struct (type_description : ReflectTypeDescription) :
    Except ReflectError UniformPropertyType :=
  match reflect_uniform_members type_description.members with
  | Except.ok properties => Except.ok (UniformPropertyType.Struct properties)
  | Except.error e => Except.error e

/-- `reflect_binding` (lines 71-97): unwrap the type description (the source
panics when it is absent: `MissingTypeDescription`), then classify by the
descriptor resource kind.  A uniform buffer is named from the type's declared
name and resolves its uniform tree; a sampled image is named from the
binding's instance name and maps its dimension; a sampler is named from the
binding's instance name; every other kind panics `UnsupportedBindingType`. -/
def reflect_binding (binding : ReflectDescriptorBinding) : Except ReflectError Binding :=
  match binding.type_description with
  | none => Except.error ReflectError.MissingTypeDescription
  | some type_description =>
    let name_and_bind_type : Except ReflectError (String × BindType) :=
      match binding.descriptor_type with
      | ReflectDescriptorType.UniformBuffer =>
        match reflect_uniform type_description with
        | Except.ok property =>
          Except.ok (type_description.type_name, BindType.Uniform false [property])
        | Except.error e => Except.error e
      | ReflectDescriptorType.SampledImage =>
        match reflect_dimension type_description with
        | Except.ok dimension =>
          Except.ok (binding.name, BindType.SampledTexture dimension false)
        | Except.error e => Except.error e
      | ReflectDescriptorType.Sampler =>
        Except.ok (binding.name, BindType.Sampler)
      | other => Except.error (ReflectError.UnsupportedBindingType other)
    match name_and_bind_type with
    | Except.ok (name, bind_type) =>
      Except.ok { index := binding.binding, bind_type := bind_type, name := name }
    | Except.error e => Except.error e

/-- The binding loop of `reflect_bind_group` (lines 51-59): reflect each
binding of the set in enumeration order, stopping at the first abort. -/
def reflect_bindings :
    List ReflectDescriptorBinding → Except ReflectError (List Binding)
  | [] => Except.ok []
  | descriptor_binding :: rest =>
    match reflect_binding descriptor_binding with
    | Except.error e => Except.error e
    | Except.ok binding =>
      match reflect_bindings rest with
      | Except.error e => Except.error e
      | Except.ok bindings => Except.ok (binding :: bindings)

/-- `reflect_bind_group` (lines 51-59): reflect every binding of the set in
enumeration order and wrap with the set's numeric index. -/
def reflect_bind_group (descriptor_set : ReflectDescriptorSet) :
    Except ReflectError BindGroup :=
  match reflect_bindings descriptor_set.bindings with
  | Except.ok bindings => Except.ok (BindGroup.new descriptor_set.set bindings)
  | Except.error e => Except.error e

/-- Modelled from the spec: the handle the introspection facility returns
from `load` — the entry-point name and the descriptor sets in enumeration
order (`module.get_entry_point_name()` /
`module.enumerate_descriptor_sets(None)` of the `spirv_reflect` collaborator,
which is external to this repository). -/
structure ShaderModule where
  entry_point_name : String
  descriptor_sets : List ReflectDescriptorSet

/-- The descriptor-set loop of `get_shader_layout` (lines 36-40): reflect
every descriptor set in enumeration order, stopping at the first abort. -/
def reflect_bind_groups :
    List ReflectDescriptorSet → Except ReflectError (List BindGroup)
  | [] => Except.ok []
  | descriptor_set :: rest =>
    match reflect_bind_group descriptor_set with
    | Except.error e => Except.error e
    | Except.ok bind_group =>
      match reflect_bind_groups rest with
      | Except.error e => Except.error e
      | Except.ok bind_groups => Except.ok (bind_group :: bind_groups)

/-- `get_shader_layout` (lines 32-49).  The external
`ShaderModule::load_u8_data` call is abstracted as its result: `Except.ok` a
loaded module handle or `Except.error` the facility's load failure, on which
the source panics (`LoadError`).  On a loaded module the entry-point name is
read and every descriptor set is reflected, in enumeration order, with no
filtering. -/
def get_shader_layout (load_result : Except String ShaderModule) :
    Except ReflectError ShaderLayout :=
  match load_result with
  | Except.ok module =>
    let entry_point_name := module.entry_point_name
    match reflect_bind_groups module.descriptor_sets with
    | Except.ok bind_groups =>
      Except.ok { bind_groups := bind_groups, entry_point := entry_point_name }
    | Except.error e => Except.error e
  | Except.error err => Except.error (ReflectError.LoadError err)

/-!
Concrete fixtures.  `camera_type`, `texture_type` and `test_module` mirror
the module of the source's `test_reflection` test (a `Camera` uniform block
holding one unnamed `mat4` member at set 0 binding 0, and a 2D texture named
`Texture` at set 1 binding 0); the remaining fixtures exercise the abort
paths.
-/

/-- The unnamed `mat4` member of the `Camera` block. -/
def mat4_member_type : ReflectTypeDescription :=
  ReflectTypeDescription.mk ""
    { float := true, vector := true, matrix := true }
    { numeric :=
        { scalar := { width := 32, signedness := 0 },
          vector := { component_count := 4 },
          matrix := { column_count := 4, row_count := 4, stride := 16 } } }
    []

/-- The `Camera` uniform-block type: a struct with one unnamed member. -/
def camera_type : ReflectTypeDescription :=
  ReflectTypeDescription.mk "Camera"
    { external_block := true, struct := true }
    {}
    [mat4_member_type]

/-- The `Camera` descriptor binding (uniform buffer, empty instance name). -/
def camera_binding : ReflectDescriptorBinding :=
  { binding := 0
    name := ""
    descriptor_type := ReflectDescriptorType.UniformBuffer
    type_description := some camera_type }

/-- The `texture2D Texture` type: a 2D image. -/
def texture_type : ReflectTypeDescription :=
  ReflectTypeDescription.mk ""
    { external_image := true }
    { image := { dim := ReflectDimension.Type2d } }
    []

/-- The `Texture` descriptor binding (sampled image). -/
def texture_binding : ReflectDescriptorBinding :=
  { binding := 0
    name := "Texture"
    descriptor_type := ReflectDescriptorType.SampledImage
    type_description := some texture_type }

/-- A sampler type description. -/
def sampler_type : ReflectTypeDescription :=
  ReflectTypeDescription.mk "" { external_sampler := true } {} []

/-- A sampler descriptor binding named from its instance variable. -/
def sampler_binding : ReflectDescriptorBinding :=
  { binding := 1
    name := "color_sampler"
    descriptor_type := ReflectDescriptorType.Sampler
    type_description := some sampler_type }

/-- A storage-buffer descriptor binding: a resource kind outside
`{uniform buffer, sampled image, sampler}`. -/
def storage_buffer_binding : ReflectDescriptorBinding :=
  { binding := 2
    name := "Lights"
    descriptor_type := ReflectDescriptorType.StorageBuffer
    type_description := some camera_type }

/-- A numeric type reporting the out-of-range signedness trait `2`. -/
def signedness2_type : ReflectTypeDescription :=
  ReflectTypeDescription.mk "Weird"
    { int := true }
    { numeric := { scalar := { width := 32, signedness := 2 } } }
    []

/-- A sampled-image type whose dimensionality is a sub-pass input. -/
def subpass_type : ReflectTypeDescription :=
  ReflectTypeDescription.mk ""
    { external_image := true }
    { image := { dim := ReflectDimension.SubPassData } }
    []

/-- A numeric leaf carrying both the integer and the floating-point flag. -/
def both_flags_type : ReflectTypeDescription :=
  ReflectTypeDescription.mk "B"
    { int := true, float := true }
    { numeric := { scalar := { width := 32, signedness := 0 },
                   vector := { component_count := 4 } } }
    []

/-- The loaded module of the source's `test_reflection` test. -/
def test_module : ShaderModule :=
  { entry_point_name := "main"
    descriptor_sets :=
      [ { set := 0, bindings := [camera_binding] },
        { set := 1, bindings := [texture_binding] } ] }

/-- The layout the source's `test_reflection` test expects. -/
def test_layout : ShaderLayout :=
  { bind_groups :=
      [ BindGroup.new 0
          [ { index := 0
              bind_type := BindType.Uniform false
                [UniformProperty.mk "Camera"
                  (UniformPropertyType.Struct [UniformProperty.mk "" UniformPropertyType.Mat4])]
              name := "Camera" } ],
        BindGroup.new 1
          [ { index := 0
              bind_type := BindType.SampledTexture TextureViewDimension.D2 false
              name := "Texture" } ] ]
    entry_point := "main" }

/-!
Height of a type tree and a fuel-indexed evaluator: the raw recursion of
`reflect_uniform`, charged one unit of fuel per tree level, returning `none`
when the budget is exhausted before the recursion bottoms out.  It witnesses
that the recursion terminates on every finite tree within `height` steps.
-/

mutual
/-- Height of a type-description tree (leaves have height 1). -/
def ReflectTypeDescription.height : ReflectTypeDescription → Nat
  | ReflectTypeDescription.mk _ _ _ members =>
    ReflectTypeDescription.height_list members + 1

/-- Height of a forest of type descriptions (the empty forest has height 0). -/
def ReflectTypeDescription.height_list : List ReflectTypeDescription → Nat
  | [] => 0
  | member :: rest =>
    max member.height (ReflectTypeDescription.height_list rest)
end

mutual
/-- The recursion of `reflect_uniform` with an explicit fuel budget, one unit
per tree level; `none` models non-termination within the budget. -/
def reflect_uniform_fuel :
    Nat → ReflectTypeDescription → Option (Except ReflectError UniformProperty)
  | 0, _ => none
  | fuel + 1, ReflectTypeDescription.mk type_name type_flags traits members =>
    let uniform_property_type :
        Option (Except ReflectError UniformPropertyType) :=
      if type_flags.struct then
        match reflect_uniform_members_fuel fuel members with
        | none => none
        | some (Except.ok properties) =>
          some (Except.ok (UniformPropertyType.Struct properties))
        | some (Except.error e) => some (Except.error e)
      else
        some (reflect_uniform_numeric
          (ReflectTypeDescription.mk type_name type_flags traits members))
    match uniform_property_type with
    | none => none
    | some (Except.ok property_type) =>
      some (Except.ok (UniformProperty.mk type_name property_type))
    | some (Except.error e) => some (Except.error e)
termination_by fuel _ => (fuel, 0)

/-- The member loop of the fuel-indexed evaluator. -/
def reflect_uniform_members_fuel :
    Nat → List ReflectTypeDescription → Option (Except ReflectError (List UniformProperty))
  | _, [] => some (Except.ok [])
  | fuel, member :: rest =>
    match reflect_uniform_fuel fuel member with
    | none => none
    | some (Except.error e) => some (Except.error e)
    | some (Except.ok property) =>
      match reflect_uniform_members_fuel fuel rest with
      | none => none
      | some (Except.error e) => some (Except.error e)
      | some (Except.ok properties) => some (Except.ok (property :: properties))
termination_by fuel members => (fuel, members.length + 1)
end

/-- The invariant of the reserved binding flags: a `Uniform` binding's
`dynamic` field and a `SampledTexture` binding's `multisampled` field are
`false`; a `Sampler` has no such field. -/
def BindType.reserved_flags_false : BindType → Prop
  | BindType.Uniform dynamic _ => dynamic = false
  | BindType.SampledTexture _ multisampled => multisampled = false
  | BindType.Sampler => True

/-!
Helper lemmas.
-/

/-- `reflect_uniform_numeric` reads only the flags and the traits of its
node: the declared name and the members are irrelevant. -/
theorem reflect_uniform_numeric_name_blind
    (n n' : String) (f : ReflectTypeFlags) (t : ReflectTypeDescriptionTraits)
    (ms ms' : List ReflectTypeDescription) :
    reflect_uniform_numeric (ReflectTypeDescription.mk n f t ms) =
      reflect_uniform_numeric (ReflectTypeDescription.mk n' f t ms') := rfl

/-- Unfolding `reflect_uniform` at a node. -/
theorem reflect_uniform_mk (n : String) (f : ReflectTypeFlags)
    (t : ReflectTypeDescriptionTraits) (ms : List ReflectTypeDescription) :
    reflect_uniform (ReflectTypeDescription.mk n f t ms) =
      match
        (if f.struct then
          match reflect_uniform_members ms with
          | Except.ok properties => Except.ok (UniformPropertyType.Struct properties)
          | Except.error e => Except.error e
        else
          reflect_uniform_numeric (ReflectTypeDescription.mk n f t ms)) with
      | Except.ok property_type => Except.ok (UniformProperty.mk n property_type)
      | Except.error e => Except.error e := rfl

/-- The fuel-indexed evaluator completes, with the value of
`reflect_uniform`, whenever the fuel covers the height of the input. -/
theorem reflect_uniform_fuel_total (fuel : Nat) :
    (∀ td, ReflectTypeDescription.height td ≤ fuel →
      reflect_uniform_fuel fuel td = some (reflect_uniform td)) ∧
    (∀ members, ReflectTypeDescription.height_list members ≤ fuel →
      reflect_uniform_members_fuel fuel members = some (reflect_uniform_members members)) := by
  induction fuel with
  | zero =>
    constructor
    · intro td h
      cases td with
      | mk n f t ms =>
        simp [ReflectTypeDescription.height] at h
    · intro ms h
      cases ms with
      | nil => simp [reflect_uniform_members_fuel, reflect_uniform_members]
      | cons m rest =>
        exfalso
        cases m with
        | mk n f t mms =>
          simp [ReflectTypeDescription.height_list, ReflectTypeDescription.height] at h
  | succ fuel ih =>
    have htd : ∀ td, ReflectTypeDescription.height td ≤ fuel + 1 →
        reflect_uniform_fuel (fuel + 1) td = some (reflect_uniform td) := by
      intro td h
      cases td with
      | mk n f t ms =>
        have hms : ReflectTypeDescription.height_list ms ≤ fuel := by
          simp [ReflectTypeDescription.height] at h
          omega
        rw [reflect_uniform_fuel, reflect_uniform_mk]
        rw [ih.2 ms hms]
        cases hfs : f.struct with
        | true =>
          simp only [if_pos rfl]
          cases reflect_uniform_members ms <;> rfl
        | false =>
          simp only [Bool.false_eq_true, if_neg]
          cases reflect_uniform_numeric (ReflectTypeDescription.mk n f t ms) <;> rfl
    refine ⟨htd, ?_⟩
    intro ms
    induction ms with
    | nil =>
      intro _
      simp [reflect_uniform_members_fuel, reflect_uniform_members]
    | cons m rest ihrest =>
      intro h
      simp only [ReflectTypeDescription.height_list] at h
      have h1 : ReflectTypeDescription.height m ≤ fuel + 1 :=
        le_trans (le_max_left _ _) h
      have h2 : ReflectTypeDescription.height_list rest ≤ fuel + 1 :=
        le_trans (le_max_right _ _) h
      rw [reflect_uniform_members_fuel, htd m h1, ihrest h2]
      simp only [reflect_uniform_members]
      cases reflect_uniform m <;> cases reflect_uniform_members rest <;> rfl

/-- `reflect_binding` on a successfully reflected binding yields `false`
reserved flags: `dynamic` and `multisampled` are hard-coded `false`. -/
theorem reflect_binding_reserved_flags
    (db : ReflectDescriptorBinding) (b : Binding)
    (h : reflect_binding db = Except.ok b) :
    BindType.reserved_flags_false b.bind_type := by
  obtain ⟨idx, nm, dt, otd⟩ := db
  cases otd with
  | none => simp [reflect_binding] at h
  | some td =>
    cases dt <;> simp [reflect_binding] at h
    case UniformBuffer =>
      cases hu : reflect_uniform td <;> rw [hu] at h <;> simp at h
      subst h
      simp [BindType.reserved_flags_false]
    case SampledImage =>
      cases hu : reflect_dimension td <;> rw [hu] at h <;> simp at h
      subst h
      simp [BindType.reserved_flags_false]
    case Sampler =>
      subst h
      simp [BindType.reserved_flags_false]

/-- The binding loop reflects exactly the given bindings, pointwise and in
order. -/
theorem reflect_bindings_forall2
    (l : List ReflectDescriptorBinding) (bs : List Binding)
    (h : reflect_bindings l = Except.ok bs) :
    List.Forall₂ (fun db b => reflect_binding db = Except.ok b) l bs := by
  induction l generalizing bs with
  | nil =>
    simp [reflect_bindings] at h
    subst h
    exact List.Forall₂.nil
  | cons db rest ih =>
    simp only [reflect_bindings] at h
    cases hb : reflect_binding db <;> rw [hb] at h
    · simp at h
    · cases hr : reflect_bindings rest <;> rw [hr] at h
      · simp at h
      · simp at h
        subst h
        exact List.Forall₂.cons hb (ih _ hr)

/-- A reflected bind group carries its set's numeric index and the pointwise
reflections of the set's bindings, in enumeration order. -/
theorem reflect_bind_group_spec
    (ds : ReflectDescriptorSet) (bg : BindGroup)
    (h : reflect_bind_group ds = Except.ok bg) :
    bg.set = ds.set ∧
      List.Forall₂ (fun db b => reflect_binding db = Except.ok b)
        ds.bindings bg.bindings := by
  unfold reflect_bind_group at h
  cases hr : reflect_bindings ds.bindings <;> rw [hr] at h
  · simp at h
  · simp at h
    subst h
    exact ⟨rfl, reflect_bindings_forall2 _ _ hr⟩

/-- The descriptor-set loop reflects exactly the given sets, pointwise and in
order. -/
theorem reflect_bind_groups_forall2
    (sets : List ReflectDescriptorSet) (gs : List BindGroup)
    (h : reflect_bind_groups sets = Except.ok gs) :
    List.Forall₂
      (fun ds bg =>
        bg.set = ds.set ∧
          List.Forall₂ (fun db b => reflect_binding db = Except.ok b)
            ds.bindings bg.bindings)
      sets gs := by
  induction sets generalizing gs with
  | nil =>
    simp [reflect_bind_groups] at h
    subst h
    exact List.Forall₂.nil
  | cons ds rest ih =>
    simp only [reflect_bind_groups] at h
    cases hg : reflect_bind_group ds <;> rw [hg] at h
    · simp at h
    · cases hr : reflect_bind_groups rest <;> rw [hr] at h
      · simp at h
      · simp at h
        subst h
        exact List.Forall₂.cons (reflect_bind_group_spec _ _ hg) (ih _ hr)

/-- A layout extracted from a loaded module carries the module's entry-point
name and the pointwise reflections of its descriptor sets, in enumeration
order. -/
theorem get_shader_layout_spec
    (module : ShaderModule) (layout : ShaderLayout)
    (h : get_shader_layout (Except.ok module) = Except.ok layout) :
    layout.entry_point = module.entry_point_name ∧
      List.Forall₂
        (fun ds bg =>
          bg.set = ds.set ∧
            List.Forall₂ (fun db b => reflect_binding db = Except.ok b)
              ds.bindings bg.bindings)
        module.descriptor_sets layout.bind_groups := by
  simp only [get_shader_layout] at h
  cases hr : reflect_bind_groups module.descriptor_sets <;> rw [hr] at h
  · simp at h
  · simp at h
    subst h
    exact ⟨rfl, reflect_bind_groups_forall2 _ _ hr⟩

/-!
Claim theorems.
-/

/-- C1: for every descriptor binding (with its type description present, as
the source unconditionally unwraps it), `reflect_binding` classifies by
resource kind exactly as the spec table states: a uniform buffer produces
`Uniform { dynamic := false, properties := [resolve_uniform(type)] }` named
from the underlying type's declared name; a sampled image produces
`SampledTexture` named from the binding's instance name; a sampler produces
`Sampler` named from the binding's instance name; every other resource kind
fails with `UnsupportedBindingType` of that kind. -/
theorem reflect_binding_classifies_by_resource_kind
    (db : ReflectDescriptorBinding) (td : ReflectTypeDescription)
    (htd : db.type_description = some td) :
    (db.descriptor_type = ReflectDescriptorType.UniformBuffer →
      ∀ p, reflect_uniform td = Except.ok p →
        reflect_binding db =
          Except.ok { index := db.binding
                      bind_type := BindType.Uniform false [p]
                      name := td.type_name }) ∧
    (db.descriptor_type = ReflectDescriptorType.SampledImage →
      ∀ d, reflect_dimension td = Except.ok d →
        reflect_binding db =
          Except.ok { index := db.binding
                      bind_type := BindType.SampledTexture d false
                      name := db.name }) ∧
    (db.descriptor_type = ReflectDescriptorType.Sampler →
      reflect_binding db =
        Except.ok { index := db.binding
                    bind_type := BindType.Sampler
                    name := db.name }) ∧
    (db.descriptor_type ≠ ReflectDescriptorType.UniformBuffer →
      db.descriptor_type ≠ ReflectDescriptorType.SampledImage →
      db.descriptor_type ≠ ReflectDescriptorType.Sampler →
      reflect_binding db =
        Except.error (ReflectError.UnsupportedBindingType db.descriptor_type)) := by
  refine ⟨?_, ?_, ?_, ?_⟩
  · intro hdt p hp
    simp [reflect_binding, htd, hdt, hp]
  · intro hdt d hd
    simp [reflect_binding, htd, hdt, hd]
  · intro hdt
    simp [reflect_binding, htd, hdt]
  · intro h1 h2 h3
    cases hdt : db.descriptor_type
    case UniformBuffer => exact absurd hdt h1
    case SampledImage => exact absurd hdt h2
    case Sampler => exact absurd hdt h3
    all_goals simp [reflect_binding, htd, hdt]

/-- Witness for C1: the `Camera` uniform-buffer binding of the source's test
module is classified as a `Uniform` binding named from the type's declared
name `Camera`, not from its (empty) instance name. -/
theorem reflect_binding_classifies_by_resource_kind_witness :
    camera_binding.type_description = some camera_type ∧
    camera_binding.descriptor_type = ReflectDescriptorType.UniformBuffer ∧
    reflect_uniform camera_type =
      Except.ok (UniformProperty.mk "Camera"
        (UniformPropertyType.Struct [UniformProperty.mk "" UniformPropertyType.Mat4])) ∧
    reflect_binding camera_binding =
      Except.ok { index := 0
                  bind_type := BindType.Uniform false
                    [UniformProperty.mk "Camera"
                      (UniformPropertyType.Struct
                        [UniformProperty.mk "" UniformPropertyType.Mat4])]
                  name := "Camera" } :=
  ⟨rfl, rfl, rfl,
    (reflect_binding_classifies_by_resource_kind camera_binding camera_type rfl).1
      rfl _ rfl⟩

/-- C3: the number class of a numeric leaf is determined from the type flags
exactly as specified: with the integer flag, signedness `0` yields the
unsigned class and `1` the signed class, while any other signedness value
fails with `InvalidSignedness`; with the floating-point flag and no integer
flag the class is `Float`; with neither flag the resolution fails with
`UnrecognizedTypeFlags`. -/
theorem reflect_number_type_from_flags (td : ReflectTypeDescription) :
    (td.type_flags.int = true →
      (td.traits.numeric.scalar.signedness = 0 →
        reflect_number_type td = Except.ok NumberType.UInt) ∧
      (td.traits.numeric.scalar.signedness = 1 →
        reflect_number_type td = Except.ok NumberType.Int) ∧
      (∀ s, td.traits.numeric.scalar.signedness = s → 2 ≤ s →
        reflect_number_type td = Except.error (ReflectError.InvalidSignedness s))) ∧
    (td.type_flags.int = false → td.type_flags.float = true →
      reflect_number_type td = Except.ok NumberType.Float) ∧
    (td.type_flags.int = false → td.type_flags.float = false →
      reflect_number_type td =
        Except.error (ReflectError.UnrecognizedTypeFlags td.type_flags)) := by
  refine ⟨fun hint => ⟨?_, ?_, ?_⟩, ?_, ?_⟩
  · intro h0
    simp [reflect_number_type, hint, h0]
  · intro h1
    simp [reflect_number_type, hint, h1]
  · intro s hs h2
    rcases s with _ | _ | k
    · exfalso; omega
    · exfalso; omega
    · simp [reflect_number_type, hint, hs]
  · intro h1 h2
    simp [reflect_number_type, h1, h2]
  · intro h1 h2
    simp [reflect_number_type, h1, h2]

/-- Witness for C3: a numeric type reporting a signedness trait of `2` under
the integer flag aborts with `InvalidSignedness 2`. -/
theorem reflect_number_type_from_flags_witness :
    signedness2_type.type_flags.int = true ∧
    signedness2_type.traits.numeric.scalar.signedness = 2 ∧ 2 ≤ 2 ∧
    reflect_number_type signedness2_type =
      Except.error (ReflectError.InvalidSignedness 2) :=
  ⟨rfl, rfl, by decide,
    ((reflect_number_type_from_flags signedness2_type).1 rfl).2.2 2 rfl (by decide)⟩

/-- C5: `reflect_dimension` maps dimensionality 1D to `D1`, 2D to `D2`, 3D to
`D3` and Cube to `Cube`, and fails with `UnsupportedImageDimension` on every
other dimensionality. -/
theorem reflect_dimension_maps_dimensionality (td : ReflectTypeDescription) :
    (td.traits.image.dim = ReflectDimension.Type1d →
      reflect_dimension td = Except.ok TextureViewDimension.D1) ∧
    (td.traits.image.dim = ReflectDimension.Type2d →
      reflect_dimension td = Except.ok TextureViewDimension.D2) ∧
    (td.traits.image.dim = ReflectDimension.Type3d →
      reflect_dimension td = Except.ok TextureViewDimension.D3) ∧
    (td.traits.image.dim = ReflectDimension.Cube →
      reflect_dimension td = Except.ok TextureViewDimension.Cube) ∧
    (td.traits.image.dim ≠ ReflectDimension.Type1d →
      td.traits.image.dim ≠ ReflectDimension.Type2d →
      td.traits.image.dim ≠ ReflectDimension.Type3d →
      td.traits.image.dim ≠ ReflectDimension.Cube →
      reflect_dimension td =
        Except.error (ReflectError.UnsupportedImageDimension td.traits.image.dim)) := by
  refine ⟨?_, ?_, ?_, ?_, ?_⟩
  · intro h; simp [reflect_dimension, h]
  · intro h; simp [reflect_dimension, h]
  · intro h; simp [reflect_dimension, h]
  · intro h; simp [reflect_dimension, h]
  · intro h1 h2 h3 h4
    cases hd : td.traits.image.dim
    case Type1d => exact absurd hd h1
    case Type2d => exact absurd hd h2
    case Type3d => exact absurd hd h3
    case Cube => exact absurd hd h4
    all_goals simp [reflect_dimension, hd]

/-- Witness for C5 (Scenario C of the spec): a sampled image whose
dimensionality is a sub-pass input aborts with `UnsupportedImageDimension`. -/
theorem reflect_dimension_maps_dimensionality_witness :
    subpass_type.traits.image.dim = ReflectDimension.SubPassData ∧
    reflect_dimension subpass_type =
      Except.error (ReflectError.UnsupportedImageDimension ReflectDimension.SubPassData) :=
  ⟨rfl,
    (reflect_dimension_maps_dimensionality subpass_type).2.2.2.2
      (by decide) (by decide) (by decide) (by decide)⟩

/-- C6 (divergence, evaluated at the failing input): on a storage-buffer
descriptor binding — a resource kind outside the supported set — the source's
`reflect_binding` hits its `panic!` path (modelled as the `Except.error`
outcome), i.e. the process aborts instead of returning a typed, recoverable
error result to the caller as the spec's propagation policy requires. -/
theorem reflect_binding_storage_buffer_aborts :
    reflect_binding storage_buffer_binding =
      Except.error (ReflectError.UnsupportedBindingType
        ReflectDescriptorType.StorageBuffer) := rfl

/-- C2: shape resolution of a numeric leaf follows the spec's closed table.
With the matrix flag, only `(Float, 3, 3)` yields `Mat3` and `(Float, 4, 4)`
yields `Mat4`, and any other class/columns/rows combination fails with
`UnsupportedMatrixShape`; without it, by component count, `(Int, 1)` yields
`Int`, `(Float, 3)` yields `Vec3`, `(Float, 4)` yields `Vec4`, `(UInt, 4)`
yields the 4-component unsigned vector `UVec4` (the spec's `UInt4`), and any
other combination fails with `UnsupportedVectorShape`. -/
theorem reflect_uniform_numeric_shape_table
    (td : ReflectTypeDescription) (nt : NumberType)
    (h : reflect_number_type td = Except.ok nt) :
    (td.type_flags.matrix = true →
      (nt = NumberType.Float →
        td.traits.numeric.matrix.column_count = 3 →
        td.traits.numeric.matrix.row_count = 3 →
        reflect_uniform_numeric td = Except.ok UniformPropertyType.Mat3) ∧
      (nt = NumberType.Float →
        td.traits.numeric.matrix.column_count = 4 →
        td.traits.numeric.matrix.row_count = 4 →
        reflect_uniform_numeric td = Except.ok UniformPropertyType.Mat4) ∧
      (¬(nt = NumberType.Float ∧ td.traits.numeric.matrix.column_count = 3 ∧
          td.traits.numeric.matrix.row_count = 3) →
       ¬(nt = NumberType.Float ∧ td.traits.numeric.matrix.column_count = 4 ∧
          td.traits.numeric.matrix.row_count = 4) →
        reflect_uniform_numeric td =
          Except.error (ReflectError.UnsupportedMatrixShape nt
            td.traits.numeric.matrix.column_count
            td.traits.numeric.matrix.row_count))) ∧
    (td.type_flags.matrix = false →
      (nt = NumberType.Int → td.traits.numeric.vector.component_count = 1 →
        reflect_uniform_numeric td = Except.ok UniformPropertyType.Int) ∧
      (nt = NumberType.Float → td.traits.numeric.vector.component_count = 3 →
        reflect_uniform_numeric td = Except.ok UniformPropertyType.Vec3) ∧
      (nt = NumberType.Float → td.traits.numeric.vector.component_count = 4 →
        reflect_uniform_numeric td = Except.ok UniformPropertyType.Vec4) ∧
      (nt = NumberType.UInt → td.traits.numeric.vector.component_count = 4 →
        reflect_uniform_numeric td = Except.ok UniformPropertyType.UVec4) ∧
      (¬(nt = NumberType.Int ∧ td.traits.numeric.vector.component_count = 1) →
       ¬(nt = NumberType.Float ∧ td.traits.numeric.vector.component_count = 3) →
       ¬(nt = NumberType.Float ∧ td.traits.numeric.vector.component_count = 4) →
       ¬(nt = NumberType.UInt ∧ td.traits.numeric.vector.component_count = 4) →
        reflect_uniform_numeric td =
          Except.error (ReflectError.UnsupportedVectorShape nt
            td.traits.numeric.vector.component_count))) := by
  refine ⟨fun hm => ⟨?_, ?_, ?_⟩, fun hm => ⟨?_, ?_, ?_, ?_, ?_⟩⟩
  · intro hnt hc hr
    subst hnt
    simp [reflect_uniform_numeric, h, hm, hc, hr]
  · intro hnt hc hr
    subst hnt
    simp [reflect_uniform_numeric, h, hm, hc, hr]
  · intro hno33 hno44
    simp only [reflect_uniform_numeric, h, hm, if_true]
    generalize hc : td.traits.numeric.matrix.column_count = c at hno33 hno44 ⊢
    generalize hr : td.traits.numeric.matrix.row_count = r at hno33 hno44 ⊢
    rcases nt with _ | _ | _
    · rfl
    · rfl
    · rcases c with _ | _ | _ | _ | _ | c
      · rfl
      · rfl
      · rfl
      · rcases r with _ | _ | _ | _ | r
        · rfl
        · rfl
        · rfl
        · exact absurd ⟨rfl, rfl, rfl⟩ hno33
        · rfl
      · rcases r with _ | _ | _ | _ | _ | r
        · rfl
        · rfl
        · rfl
        · rfl
        · exact absurd ⟨rfl, rfl, rfl⟩ hno44
        · rfl
      · rfl
  · intro hnt hc
    subst hnt
    simp [reflect_uniform_numeric, h, hm, hc]
  · intro hnt hc
    subst hnt
    simp [reflect_uniform_numeric, h, hm, hc]
  · intro hnt hc
    subst hnt
    simp [reflect_uniform_numeric, h, hm, hc]
  · intro hnt hc
    subst hnt
    simp [reflect_uniform_numeric, h, hm, hc]
  · intro hno1 hno3 hno4 hnou4
    simp only [reflect_uniform_numeric, h, hm, Bool.false_eq_true, if_false]
    generalize hc : td.traits.numeric.vector.component_count = c
      at hno1 hno3 hno4 hnou4 ⊢
    rcases nt with _ | _ | _
    · rcases c with _ | _ | c
      · rfl
      · exact absurd ⟨rfl, rfl⟩ hno1
      · rfl
    · rcases c with _ | _ | _ | _ | _ | c
      · rfl
      · rfl
      · rfl
      · rfl
      · exact absurd ⟨rfl, rfl⟩ hnou4
      · rfl
    · rcases c with _ | _ | _ | _ | _ | c
      · rfl
      · rfl
      · rfl
      · exact absurd ⟨rfl, rfl⟩ hno3
      · exact absurd ⟨rfl, rfl⟩ hno4
      · rfl

/-- Witness for C2: the unnamed member of the test module's `Camera` block is
a `Float` 4×4 matrix and resolves to `Mat4`. -/
theorem reflect_uniform_numeric_shape_table_witness :
    reflect_number_type mat4_member_type = Except.ok NumberType.Float ∧
    mat4_member_type.type_flags.matrix = true ∧
    mat4_member_type.traits.numeric.matrix.column_count = 4 ∧
    mat4_member_type.traits.numeric.matrix.row_count = 4 ∧
    reflect_uniform_numeric mat4_member_type = Except.ok UniformPropertyType.Mat4 :=
  ⟨rfl, rfl, rfl, rfl,
    ((reflect_uniform_numeric_shape_table mat4_member_type NumberType.Float rfl).1
      rfl).2.1 rfl rfl rfl⟩

/-- The member loop resolves exactly the given members, pointwise and in
declaration order. -/
theorem reflect_uniform_members_forall2
    (ms : List ReflectTypeDescription) (ps : List UniformProperty)
    (h : reflect_uniform_members ms = Except.ok ps) :
    List.Forall₂ (fun m p => reflect_uniform m = Except.ok p) ms ps := by
  induction ms generalizing ps with
  | nil =>
    simp [reflect_uniform_members] at h
    subst h
    exact List.Forall₂.nil
  | cons m rest ih =>
    simp only [reflect_uniform_members] at h
    cases hm : reflect_uniform m <;> rw [hm] at h
    · simp at h
    · cases hr : reflect_uniform_members rest <;> rw [hr] at h
      · simp at h
      · simp at h
        subst h
        exact List.Forall₂.cons hm (ih _ hr)

/-- Right-membership in a `Forall₂` relation has a related left element. -/
theorem forall2_mem_right {α β : Type} {R : α → β → Prop} :
    ∀ {l1 : List α} {l2 : List β}, List.Forall₂ R l1 l2 →
      ∀ b ∈ l2, ∃ a ∈ l1, R a b := by
  intro l1 l2 h
  induction h with
  | nil => intro b hb; cases hb
  | cons hR _ ih =>
    intro b hb
    rcases List.mem_cons.mp hb with hb | hb
    · subst hb
      exact ⟨_, List.mem_cons_self _ _, hR⟩
    · obtain ⟨a, ha, hab⟩ := ih b hb
      exact ⟨a, List.mem_cons_of_mem _ ha, hab⟩

/-- C4: a struct-flagged type description resolves to a `UniformProperty`
named by the type's declared name whose property type is `Struct` of the
recursively resolved members in declaration order; and the success of
resolution never depends on a declared name, so an empty (anonymous) name is
never an error. -/
theorem reflect_uniform_struct_resolution
    (td : ReflectTypeDescription) (h : td.type_flags.struct = true) :
    (reflect_uniform td =
      match reflect_uniform_members td.members with
      | Except.ok properties =>
        Except.ok (UniformProperty.mk td.type_name (UniformPropertyType.Struct properties))
      | Except.error e => Except.error e) ∧
    (∀ ps, reflect_uniform_members td.members = Except.ok ps →
      List.Forall₂ (fun m p => reflect_uniform m = Except.ok p) td.members ps) ∧
    (∀ n n' f t ms,
      (reflect_uniform (ReflectTypeDescription.mk n f t ms)).isOk =
        (reflect_uniform (ReflectTypeDescription.mk n' f t ms)).isOk) := by
  refine ⟨?_, fun ps hp => reflect_uniform_members_forall2 _ _ hp, ?_⟩
  · cases td with
    | mk n f t ms =>
      rw [reflect_uniform_mk]
      simp only [ReflectTypeDescription.type_flags] at h
      simp only [h, if_true, ReflectTypeDescription.members,
        ReflectTypeDescription.type_name]
      cases reflect_uniform_members ms <;> rfl
  · intro n n' f t ms
    rw [reflect_uniform_mk, reflect_uniform_mk]
    rw [reflect_uniform_numeric_name_blind n n' f t ms ms]
    cases hfs : f.struct
    · simp only [Bool.false_eq_true, if_false]
      cases reflect_uniform_numeric (ReflectTypeDescription.mk n' f t ms) <;> rfl
    · simp only [if_true]
      cases reflect_uniform_members ms <;> rfl

/-- Witness for C4: the `Camera` block (one unnamed `mat4` member) resolves
to `Struct` of its members in order, and the resolution of its anonymous
member succeeds. -/
theorem reflect_uniform_struct_resolution_witness :
    camera_type.type_flags.struct = true ∧
    reflect_uniform camera_type =
      Except.ok (UniformProperty.mk "Camera"
        (UniformPropertyType.Struct [UniformProperty.mk "" UniformPropertyType.Mat4])) := by
  refine ⟨rfl, ?_⟩
  rw [(reflect_uniform_struct_resolution camera_type rfl).1]
  rfl

/-- C7: a layout extracted from a loaded module enumerates all descriptor
sets with no filtering: the bind groups appear in the facility's enumeration
order, each carrying its set's numeric index, and each bind group's bindings
are the reflections of the set's bindings in the set's enumeration order,
with no reordering and no deduplication. -/
theorem get_shader_layout_preserves_enumeration
    (module : ShaderModule) (layout : ShaderLayout)
    (h : get_shader_layout (Except.ok module) = Except.ok layout) :
    layout.entry_point = module.entry_point_name ∧
    List.Forall₂
      (fun ds bg =>
        bg.set = ds.set ∧
          List.Forall₂ (fun db b => reflect_binding db = Except.ok b)
            ds.bindings bg.bindings)
      module.descriptor_sets layout.bind_groups :=
  get_shader_layout_spec module layout h

/-- Witness for C7: the test module (sets 0 and 1) extracts to the test
layout, whose bind groups mirror the enumeration. -/
theorem get_shader_layout_preserves_enumeration_witness :
    get_shader_layout (Except.ok test_module) = Except.ok test_layout ∧
    (test_layout.entry_point = test_module.entry_point_name ∧
      List.Forall₂
        (fun ds bg =>
          bg.set = ds.set ∧
            List.Forall₂ (fun db b => reflect_binding db = Except.ok b)
              ds.bindings bg.bindings)
        test_module.descriptor_sets test_layout.bind_groups) :=
  ⟨rfl, get_shader_layout_preserves_enumeration test_module test_layout rfl⟩

/-- C8: in every layout `get_shader_layout` produces, every `Uniform` binding
has `dynamic = false` and every `SampledTexture` binding has
`multisampled = false`. -/
theorem get_shader_layout_reserved_flags_false
    (load_result : Except String ShaderModule) (layout : ShaderLayout)
    (h : get_shader_layout load_result = Except.ok layout) :
    ∀ bg ∈ layout.bind_groups, ∀ b ∈ bg.bindings,
      BindType.reserved_flags_false b.bind_type := by
  cases load_result with
  | error err => simp [get_shader_layout] at h
  | ok module =>
    obtain ⟨-, hf⟩ := get_shader_layout_spec module layout h
    intro bg hbg b hb
    obtain ⟨ds, -, -, hbind⟩ := forall2_mem_right hf bg hbg
    obtain ⟨db, -, hdb⟩ := forall2_mem_right hbind b hb
    exact reflect_binding_reserved_flags db b hdb

/-- Witness for C8: in the extracted test layout every reserved flag is
`false`. -/
theorem get_shader_layout_reserved_flags_false_witness :
    get_shader_layout (Except.ok test_module) = Except.ok test_layout ∧
    ∀ bg ∈ test_layout.bind_groups, ∀ b ∈ bg.bindings,
      BindType.reserved_flags_false b.bind_type :=
  ⟨rfl, get_shader_layout_reserved_flags_false (Except.ok test_module) test_layout rfl⟩

/-- C9: `reflect_uniform` is a terminating recursive tree transform: on every
finite type-description tree the raw recursion, run with any fuel budget
covering the tree's height, completes (never returns `none`) and computes the
value of the total function — the mutual recursion with the member loop is
well-founded on the member tree. -/
theorem reflect_uniform_terminates
    (td : ReflectTypeDescription) (fuel : Nat)
    (h : ReflectTypeDescription.height td ≤ fuel) :
    reflect_uniform_fuel fuel td = some (reflect_uniform td) :=
  (reflect_uniform_fuel_total fuel).1 td h

/-- Witness for C9: the two-level `Camera` tree has height 2 and its
resolution completes within fuel 2. -/
theorem reflect_uniform_terminates_witness :
    ReflectTypeDescription.height camera_type ≤ 2 ∧
    reflect_uniform_fuel 2 camera_type = some (reflect_uniform camera_type) :=
  ⟨by decide, reflect_uniform_terminates camera_type 2 (by decide)⟩

/-- C10: type-flag classification is ordered by precedence.  A type carrying
the struct flag resolves as a `Struct` from its members whatever its numeric
traits are (they are never consulted); and a numeric leaf carrying both the
integer and the floating-point flag takes the integer branch, so its class is
decided by the signedness trait and is never `Float`. -/
theorem type_flag_precedence :
    (∀ n fl tr tr' ms, fl.struct = true →
      reflect_uniform (ReflectTypeDescription.mk n fl tr ms) =
        reflect_uniform (ReflectTypeDescription.mk n fl tr' ms) ∧
      reflect_uniform (ReflectTypeDescription.mk n fl tr ms) =
        (match reflect_uniform_members ms with
         | Except.ok properties =>
           Except.ok (UniformProperty.mk n (UniformPropertyType.Struct properties))
         | Except.error e => Except.error e)) ∧
    (∀ td, td.type_flags.int = true → td.type_flags.float = true →
      reflect_number_type td =
        (match td.traits.numeric.scalar.signedness with
         | 0 => Except.ok NumberType.UInt
         | 1 => Except.ok NumberType.Int
         | s => Except.error (ReflectError.InvalidSignedness s)) ∧
      reflect_number_type td ≠ Except.ok NumberType.Float) := by
  constructor
  · intro n fl tr tr' ms hs
    have heq : ∀ t : ReflectTypeDescriptionTraits,
        reflect_uniform (ReflectTypeDescription.mk n fl t ms) =
          (match reflect_uniform_members ms with
           | Except.ok properties =>
             Except.ok (UniformProperty.mk n (UniformPropertyType.Struct properties))
           | Except.error e => Except.error e) := by
      intro t
      rw [reflect_uniform_mk]
      simp only [hs, if_true]
      cases reflect_uniform_members ms <;> rfl
    exact ⟨(heq tr).trans (heq tr').symm, heq tr⟩
  · intro td hint hfloat
    constructor
    · simp [reflect_number_type, hint]
    · simp only [reflect_number_type, hint, if_true]
      generalize td.traits.numeric.scalar.signedness = s
      rcases s with _ | _ | s <;> simp

/-- Witness for C10: a struct that also carries the integer flag resolves
identically under junk numeric traits and under default traits; and a leaf
with both the integer and the floating-point flag (signedness 0) is never
classified `Float`. -/
theorem type_flag_precedence_witness :
    (ReflectTypeFlags.struct { int := true, struct := true }) = true ∧
    both_flags_type.type_flags.int = true ∧
    both_flags_type.type_flags.float = true ∧
    reflect_uniform
        (ReflectTypeDescription.mk "S" { int := true, struct := true }
          { numeric := { scalar := { width := 32, signedness := 7 } } } []) =
      reflect_uniform
        (ReflectTypeDescription.mk "S" { int := true, struct := true } {} []) ∧
    reflect_number_type both_flags_type ≠ Except.ok NumberType.Float :=
  ⟨rfl, rfl, rfl,
    (type_flag_precedence.1 "S" { int := true, struct := true }
      { numeric := { scalar := { width := 32, signedness := 7 } } } {} [] rfl).1,
    (type_flag_precedence.2 both_flags_type rfl rfl).2⟩
